import Mathlib

/-!
Verification of the real-time presence and scoped-broadcast messaging core
of the USTHB-APP backend (src/backend/src/services/socketService.js).

The JavaScript module keeps two module-level JS Maps,
  connectedUsers : userId -> socketId
  userSockets   : socketId -> userId
and installs socket.io event handlers for join_course, leave_course,
typing_start, typing_stop, message_read, file_shared, announcement_created,
grade_updated and disconnect.  Everything below is a direct shallow
embedding of that code: JS Maps become association lists with JS Map
set/delete/has semantics, each socket.io handler becomes a pure function
from the authenticated socket and the client payload to the list of
emissions it performs, and the registry (connect/disconnect bookkeeping)
becomes a step function on an explicit state, instrumented with the set of
physically live connections so that presence claims can be stated.
-/

namespace USTHB

/-- Roles of the user model (models/User.js: enum student/teacher/admin). -/
inductive Role
  | student
  | teacher
  | admin
  deriving Repr, DecidableEq

/-- An authenticated socket: socket.id, socket.userId (set by the auth
middleware from the verified token), and the snapshot of the user record
the handlers read (socket.user.role, socket.user.department). -/
structure Sock where
  sid : Nat
  userId : Nat
  role : Role
  department : Option Nat
  deriving Repr, DecidableEq

/-- The slice of the Course document that the socket service reads:
_id, teacher and the enrolledStudents ObjectId list
(models, courseSchema: enrolledStudents : [ObjectId ref User]). -/
structure Course where
  id : Nat
  teacher : Nat
  enrolledStudents : List Nat
  deriving Repr, DecidableEq

/-- The slice of the stored User document read by broadcastStatusUpdate:
_id, role, department, enrolledCourses. -/
structure StoredUser where
  id : Nat
  role : Role
  department : Option Nat
  enrolledCourses : List Nat
  deriving Repr, DecidableEq

/-- socket.io rooms used by the service: user_{id}, course_{id},
department_{id}. -/
inductive Room
  | user (id : Nat)
  | course (id : Nat)
  | department (id : Nat)
  deriving Repr, DecidableEq

/-- Where an emission goes: socket.emit (only the handling socket),
socket.to(room)/io.to(room) (a room), or io.emit (every connection). -/
inductive Target
  | sender
  | room (r : Room)
  | everyone
  deriving Repr, DecidableEq

/-- One emission performed by a handler: its target, the event name, and
the identity field naming the acting principal carried in the payload
(userId / readBy / sharedBy.id / the status-update userId), when any. -/
structure Delivery where
  target : Target
  event : String
  actor : Option Nat
  deriving Repr, DecidableEq

/-! ### JS Map semantics on association lists -/

/-- JS Map.prototype.set: overwrite the existing entry for the key if one
exists, otherwise append a new entry. -/
def mapSet (m : List (Nat × Nat)) (k v : Nat) : List (Nat × Nat) :=
  if m.any (fun p => p.1 == k) then
    m.map (fun p => if p.1 == k then (k, v) else p)
  else
    m ++ [(k, v)]

/-- JS Map.prototype.delete: remove the entry for the key; a no-op when the
key is absent, and it never throws. -/
def mapDelete (m : List (Nat × Nat)) (k : Nat) : List (Nat × Nat) :=
  m.filter (fun p => p.1 != k)

/-- JS Map.prototype.has. -/
def mapHas (m : List (Nat × Nat)) (k : Nat) : Bool :=
  m.any (fun p => p.1 == k)

/-! ### Connection registry and presence

The connection handler runs connectedUsers.set(socket.userId, socket.id)
and userSockets.set(socket.id, socket.userId); the disconnect handler runs
connectedUsers.delete(socket.userId) and userSockets.delete(socket.id) and
then unconditionally calls broadcastStatusUpdate(socket.userId, offline).
The field live instruments the state with the physically open connections
(userId, socketId), so that presence claims about live connection sets can
be stated; the code itself never maintains such a set. -/

structure RegistryState where
  connectedUsers : List (Nat × Nat)
  userSockets : List (Nat × Nat)
  live : List (Nat × Nat)
  deriving Repr, DecidableEq

/-- A register event is the bookkeeping of the connection handler for a
socket of user u with id s; an unregister event is the disconnect handler
for that socket. -/
inductive RegEvent
  | register (u s : Nat)
  | unregister (u s : Nat)
  deriving Repr, DecidableEq

/-- One registry event; the second component lists the userIds for which an
offline statusUpdate broadcast was issued by the event.  The connection
handler broadcasts nothing; the disconnect handler always calls
broadcastStatusUpdate(socket.userId, {status: offline}). -/
def stepRegistry (st : RegistryState) : RegEvent → RegistryState × List Nat
  | RegEvent.register u s =>
      ({ connectedUsers := mapSet st.connectedUsers u s,
         userSockets := mapSet st.userSockets s u,
         live := st.live ++ [(u, s)] }, [])
  | RegEvent.unregister u s =>
      ({ connectedUsers := mapDelete st.connectedUsers u,
         userSockets := mapDelete st.userSockets s,
         live := st.live.filter (fun p => p != (u, s)) }, [u])

/-- Run a sequence of registry events, collecting the offline broadcasts. -/
def runRegistry (st : RegistryState) : List RegEvent → RegistryState × List Nat
  | [] => (st, [])
  | e :: rest =>
      let r1 := stepRegistry st e
      let r2 := runRegistry r1.1 rest
      (r2.1, r1.2 ++ r2.2)

/-- The empty initial state of the module-level maps. -/
def initRegistry : RegistryState := ⟨[], [], []⟩

/-- isUserOnline (socketService.js): connectedUsers.has(userId). -/
def isUserOnline (st : RegistryState) (userId : Nat) : Bool :=
  mapHas st.connectedUsers userId

/-- The physically live connections of a principal (instrumentation). -/
def liveConnections (st : RegistryState) (userId : Nat) : List (Nat × Nat) :=
  st.live.filter (fun p => p.1 == userId)

/-! ### Client payloads and event handlers -/

/-- Payload of typing_start / typing_stop. -/
structure TypingData where
  recipientId : Option Nat
  courseId : Option Nat
  conversationType : Option String
  deriving Repr, DecidableEq

/-- typing_start handler: if data.recipientId is present and the
conversationType is private, emit user_typing to the recipient's personal
room with userId := socket.userId; else if data.courseId is present and
the conversationType is course, emit user_typing to the course room with
userId := socket.userId; otherwise do nothing. -/
def handleTypingStart (socket : Sock) (data : TypingData) : List Delivery :=
  match data.recipientId, data.conversationType with
  | some rid, some "private" =>
      [⟨Target.room (Room.user rid), "user_typing", some socket.userId⟩]
  | _, _ =>
      match data.courseId, data.conversationType with
      | some cid, some "course" =>
          [⟨Target.room (Room.course cid), "user_typing", some socket.userId⟩]
      | _, _ => []

/-- typing_stop handler, same branching, emitting user_stopped_typing. -/
def handleTypingStop (socket : Sock) (data : TypingData) : List Delivery :=
  match data.recipientId, data.conversationType with
  | some rid, some "private" =>
      [⟨Target.room (Room.user rid), "user_stopped_typing", some socket.userId⟩]
  | _, _ =>
      match data.courseId, data.conversationType with
      | some cid, some "course" =>
          [⟨Target.room (Room.course cid), "user_stopped_typing", some socket.userId⟩]
      | _, _ => []

/-- Payload of message_read. -/
structure MessageReadData where
  messageId : Nat
  senderId : Option Nat
  conversationType : Option String
  courseId : Option Nat
  deriving Repr, DecidableEq

/-- message_read handler: private conversations emit message_read_receipt
to the sender's personal room, course conversations to the course room; in
both cases readBy := socket.userId. -/
def handleMessageRead (socket : Sock) (data : MessageReadData) : List Delivery :=
  match data.conversationType, data.senderId with
  | some "private", some sid =>
      [⟨Target.room (Room.user sid), "message_read_receipt", some socket.userId⟩]
  | _, _ =>
      match data.conversationType, data.courseId with
      | some "course", some cid =>
          [⟨Target.room (Room.course cid), "message_read_receipt", some socket.userId⟩]
      | _, _ => []

/-- Payload of file_shared (fileInfo is opaque to the handler). -/
structure FileSharedData where
  courseId : Nat
  fileInfo : Nat
  deriving Repr, DecidableEq

/-- file_shared handler: unconditionally emit file_shared to the course
room with sharedBy.id := socket.userId. -/
def handleFileShared (socket : Sock) (data : FileSharedData) : List Delivery :=
  [⟨Target.room (Room.course data.courseId), "file_shared", some socket.userId⟩]

/-- Payload of announcement_created. -/
structure Announcement where
  type : String
  department : Option Nat
  course : Option Nat
  deriving Repr, DecidableEq

/-- announcement_created handler: type general goes to everyone via
io.emit; otherwise a set department wins (io.to(department room)), and the
course room is used only when no department is set. -/
def handleAnnouncementCreated (a : Announcement) : List Delivery :=
  if a.type = "general" then
    [⟨Target.everyone, "new_announcement", none⟩]
  else
    match a.department with
    | some d => [⟨Target.room (Room.department d), "new_announcement", none⟩]
    | none =>
        match a.course with
        | some c => [⟨Target.room (Room.course c), "new_announcement", none⟩]
        | none => []

/-! ### join_course and the room-resolution helpers -/

/-- Outcome of the join_course handler: emit error Course not found, emit
error Not authorized, or join the room and emit course_joined. -/
inductive JoinResult
  | notFound
  | forbidden
  | joined
  deriving Repr, DecidableEq

/-- The access predicate of the join_course handler:
enrolledStudents.includes(socket.userId) or teacher equals socket.userId
or socket.user.role is admin. -/
def hasAccess (course : Course) (socket : Sock) : Bool :=
  course.enrolledStudents.contains socket.userId
    || course.teacher == socket.userId
    || socket.role == Role.admin

/-- join_course handler: Course.findById, Course not found when absent,
then the hasAccess check. -/
def handleJoinCourse (store : List Course) (socket : Sock) (courseId : Nat) :
    JoinResult :=
  match store.find? (fun c => c.id == courseId) with
  | none => JoinResult.notFound
  | some course =>
      if hasAccess course socket then JoinResult.joined else JoinResult.forbidden

/-- joinCourseRooms: the course rooms a fresh connection is subscribed to.
Students get the courses that list them in enrolledStudents, teachers the
courses they teach or are enrolled in, admins every course in the store.
Returned as the list of course ids whose rooms socket.join is called on. -/
def joinCourseRooms (store : List Course) (socket : Sock) : List Nat :=
  let courses : List Course :=
    match socket.role with
    | Role.student =>
        store.filter (fun c => c.enrolledStudents.contains socket.userId)
    | Role.teacher =>
        store.filter (fun c =>
          c.teacher == socket.userId || c.enrolledStudents.contains socket.userId)
    | Role.admin => store
  courses.map (fun c => c.id)

/-- The emissions the connection handler performs itself: only the
connected confirmation to the new socket (joinCourseRooms emits nothing;
no user_status_update is sent on connect). -/
def connectionEmissions (socket : Sock) : List Delivery :=
  [⟨Target.sender, "connected", some socket.userId⟩]

/-- broadcastStatusUpdate(userId, statusInfo): look the user up in the
store; students fan user_status_update out to each course room of
user.enrolledCourses; every role additionally fans out to the department
room when user.department is set.  An unknown user broadcasts nothing. -/
def broadcastStatusUpdate (users : List StoredUser) (userId : Nat) :
    List Delivery :=
  match users.find? (fun u => u.id == userId) with
  | none => []
  | some user =>
      (match user.role with
       | Role.student =>
           user.enrolledCourses.map (fun courseId =>
             ⟨Target.room (Room.course courseId), "user_status_update", some userId⟩)
       | _ => []) ++
      (match user.department with
       | some d =>
           [⟨Target.room (Room.department d), "user_status_update", some userId⟩]
       | none => [])

/-- The user_status_update emissions among a list of emissions. -/
def statusUpdates (l : List Delivery) : List Delivery :=
  l.filter (fun d => d.event == "user_status_update")

/-- Emissions whose target is a course room. -/
def isCourseDelivery (d : Delivery) : Bool :=
  match d.target with
  | Target.room (Room.course _) => true
  | _ => false

/-- Emissions whose target is a department room. -/
def isDeptDelivery (d : Delivery) : Bool :=
  match d.target with
  | Target.room (Room.department _) => true
  | _ => false

/-! ### The relay loop -/

/-- The client events relayed by the ephemeral signal relay. -/
inductive ClientEvent
  | typingStart (d : TypingData)
  | typingStop (d : TypingData)
  | messageRead (d : MessageReadData)
  | fileShared (d : FileSharedData)
  deriving Repr, DecidableEq

/-- Dispatch one client event to its handler. -/
def handleClientEvent (socket : Sock) : ClientEvent → List Delivery
  | ClientEvent.typingStart d => handleTypingStart socket d
  | ClientEvent.typingStop d => handleTypingStop socket d
  | ClientEvent.messageRead d => handleMessageRead socket d
  | ClientEvent.fileShared d => handleFileShared socket d

/-- A submission: a client event arriving on a source socket. -/
structure Submission where
  socket : Sock
  event : ClientEvent
  deriving Repr, DecidableEq

/-- A delivery tagged with the socket id of the source connection that
produced it. -/
structure Routed where
  src : Nat
  delivery : Delivery
  deriving Repr, DecidableEq

/-- The single-threaded event loop: submissions are handled to completion
in arrival order and each handler appends its emissions to the wire. -/
def relayTrace : List Submission → List Routed
  | [] => []
  | s :: rest =>
      (handleClientEvent s.socket s.event).map (fun d => ⟨s.socket.sid, d⟩)
        ++ relayTrace rest

/-- Whether a routed delivery reaches a given target connection, for a room
membership assignment rooms : connection -> room -> Bool.  Emissions to the
sender only are never observed by another connection; io.emit reaches
every connection. -/
def deliveredTo (rooms : Nat → Room → Bool) (target : Nat) (r : Routed) : Bool :=
  match r.delivery.target with
  | Target.sender => false
  | Target.room rm => rooms target rm
  | Target.everyone => true

end USTHB

namespace USTHB

/-! ### Claim settlements -/

/-- C1: the spec invariant isOnline(P) = (liveConnections(P).size > 0) after
any sequence of register/unregister fails on the code.  At the failing
input register(0, c1); register(0, c2); unregister(c1) — principal 0 holding
two simultaneous connections — the single-slot map answers
isUserOnline(0) = false although connection (0, 2) is still live, because
connectedUsers.set overwrote c1's slot with c2 and the disconnect handler
deleted the whole entry. -/
theorem isOnline_invariant_fails_at_double_connection :
    isUserOnline (runRegistry initRegistry
      [RegEvent.register 0 1, RegEvent.register 0 2, RegEvent.unregister 0 1]).1 0
      = false
    ∧ liveConnections (runRegistry initRegistry
      [RegEvent.register 0 1, RegEvent.register 0 2, RegEvent.unregister 0 1]).1 0
      = [(0, 2)] := by decide

/-- C2: at the failing input: principal 3 opens connections 10 and 11, then
connection 10 disconnects.  The claim says presence stays Online and only
the later disconnect of 11 broadcasts; the code reports the principal
offline already after the first disconnect, broadcasts an offline
statusUpdate there, and broadcasts a second one when 11 disconnects. -/
theorem first_disconnect_orphans_presence :
    isUserOnline (runRegistry initRegistry
      [RegEvent.register 3 10, RegEvent.register 3 11, RegEvent.unregister 3 10]).1 3
      = false
    ∧ (runRegistry initRegistry
      [RegEvent.register 3 10, RegEvent.register 3 11, RegEvent.unregister 3 10]).2
      = [3]
    ∧ (runRegistry initRegistry
      [RegEvent.register 3 10, RegEvent.register 3 11, RegEvent.unregister 3 10,
       RegEvent.unregister 3 11]).2
      = [3, 3] := by decide

/-- C6: the disconnect handler broadcasts an offline statusUpdate
unconditionally.  At the failing inputs: unregistering connection 20 of
principal 5 while connection 21 is still live emits a broadcast although
the live set did not become empty; and running the disconnect bookkeeping
twice for the same connection is total (no error is possible) but emits
two offline broadcasts for a single non-empty-to-empty transition. -/
theorem offline_broadcast_on_every_unregister :
    (runRegistry initRegistry
      [RegEvent.register 5 20, RegEvent.register 5 21, RegEvent.unregister 5 20]).2
      = [5]
    ∧ liveConnections (runRegistry initRegistry
      [RegEvent.register 5 20, RegEvent.register 5 21, RegEvent.unregister 5 20]).1 5
      = [(5, 21)]
    ∧ (runRegistry initRegistry
      [RegEvent.register 5 20, RegEvent.unregister 5 20, RegEvent.unregister 5 20]).2
      = [5, 5] := by decide

end USTHB

namespace USTHB

/-- C3 counterexample: principal 3 (socket 9, a student) is not a member of
course 5 (teacher 1, enrolled students [2]) — hasAccess is false — yet the
typing_start handler relays the signal straight to the course-5 room
instead of rejecting it: no membership check is consulted. -/
theorem relay_guard_cex :
    hasAccess ⟨5, 1, [2]⟩ ⟨9, 3, Role.student, none⟩ = false
    ∧ handleTypingStart ⟨9, 3, Role.student, none⟩ ⟨none, some 5, some "course"⟩
      = [⟨Target.room (Room.course 5), "user_typing", some 3⟩] := by decide

/-- C3 amended: the typing_start, typing_stop, message_read and file_shared
handlers perform no scope-membership check at all; for every source socket,
whatever its principal, role or memberships, a course-scoped signal is
relayed straight to the declared course room and never rejected as
forbidden. -/
theorem relay_routes_without_membership_check (socket : Sock)
    (c mid f : Nat) :
    handleTypingStart socket ⟨none, some c, some "course"⟩
      = [⟨Target.room (Room.course c), "user_typing", some socket.userId⟩]
    ∧ handleTypingStop socket ⟨none, some c, some "course"⟩
      = [⟨Target.room (Room.course c), "user_stopped_typing", some socket.userId⟩]
    ∧ handleMessageRead socket ⟨mid, none, some "course", some c⟩
      = [⟨Target.room (Room.course c), "message_read_receipt", some socket.userId⟩]
    ∧ handleFileShared socket ⟨c, f⟩
      = [⟨Target.room (Room.course c), "file_shared", some socket.userId⟩] :=
  ⟨rfl, rfl, rfl, rfl⟩

/-- C9: in every relayed signal the identity field naming the acting
principal (userId in user_typing and user_stopped_typing, readBy in
message_read_receipt, sharedBy.id in file_shared) is the authenticated
socket.userId of the source connection, for every client payload — so two
submissions from the same connection with different payloads always carry
the same server-derived actor identity. -/
theorem relayed_actor_is_authenticated_principal (socket : Sock)
    (d1 d2 : TypingData) (d3 : MessageReadData) (d4 : FileSharedData) :
    (handleTypingStart socket d1).all
        (fun dv => dv.actor == some socket.userId) = true
    ∧ (handleTypingStop socket d2).all
        (fun dv => dv.actor == some socket.userId) = true
    ∧ (handleMessageRead socket d3).all
        (fun dv => dv.actor == some socket.userId) = true
    ∧ (handleFileShared socket d4).all
        (fun dv => dv.actor == some socket.userId) = true := by
  refine ⟨?_, ?_, ?_, ?_⟩
  · unfold handleTypingStart
    split
    · simp
    · split
      · simp
      · simp
  · unfold handleTypingStop
    split
    · simp
    · split
      · simp
      · simp
  · unfold handleMessageRead
    split
    · simp
    · split
      · simp
      · simp
  · simp [handleFileShared]

/-- C10: announcement_created routing follows the fixed precedence of the
handler: type general is broadcast to every connection; otherwise a set
department wins even when a course is also set; the course room is used
only when the type is not general and no department is set. -/
theorem announcement_scope_precedence (a : Announcement) :
    (a.type = "general" →
      handleAnnouncementCreated a = [⟨Target.everyone, "new_announcement", none⟩])
    ∧ (¬ a.type = "general" → ∀ d, a.department = some d →
      handleAnnouncementCreated a
        = [⟨Target.room (Room.department d), "new_announcement", none⟩])
    ∧ (¬ a.type = "general" → a.department = none → ∀ c, a.course = some c →
      handleAnnouncementCreated a
        = [⟨Target.room (Room.course c), "new_announcement", none⟩]) := by
  refine ⟨?_, ?_, ?_⟩
  · intro h
    simp [handleAnnouncementCreated, h]
  · intro h d hd
    simp [handleAnnouncementCreated, h, hd]
  · intro h hd c hc
    simp [handleAnnouncementCreated, h, hd, hc]

/-- Witness for the C10 theorem at concrete announcements: one of each
shape (general with both scopes set, non-general with department and
course set, non-general with only a course set). -/
theorem announcement_scope_precedence_witness :
    handleAnnouncementCreated ⟨"general", some 1, some 2⟩
      = [⟨Target.everyone, "new_announcement", none⟩]
    ∧ handleAnnouncementCreated ⟨"exam", some 1, some 2⟩
      = [⟨Target.room (Room.department 1), "new_announcement", none⟩]
    ∧ handleAnnouncementCreated ⟨"exam", none, some 2⟩
      = [⟨Target.room (Room.course 2), "new_announcement", none⟩] :=
  ⟨(announcement_scope_precedence ⟨"general", some 1, some 2⟩).1 rfl,
   (announcement_scope_precedence ⟨"exam", some 1, some 2⟩).2.1 (by decide) 1 rfl,
   (announcement_scope_precedence ⟨"exam", none, some 2⟩).2.2 (by decide) rfl 2 rfl⟩

end USTHB

namespace USTHB

/-- C4 counterexample: a teacher (user 10, department 3, enrolledCourses
[7]) connects and disconnects.  The connect path emits no user_status_update
at all (the claim asks for exactly one per Offline-to-Online transition),
and the disconnect broadcast reaches only the department room — no course
room receives it, because broadcastStatusUpdate fans out to course rooms
only for students. -/
theorem status_update_scope_cex :
    statusUpdates (connectionEmissions ⟨1, 10, Role.teacher, some 3⟩) = []
    ∧ broadcastStatusUpdate [⟨10, Role.teacher, some 3, [7]⟩] 10
      = [⟨Target.room (Room.department 3), "user_status_update", some 10⟩] := by
  decide

/-- C4 amended: no statusUpdate is emitted on connect (Offline-to-Online
transitions broadcast nothing); the disconnect-path broadcast for a stored
user delivers user_status_update to the course rooms of the user's
enrolledCourses exactly when the user's role is student (non-students get
no course-room delivery), and to the department room exactly when a
department is set, for every role. -/
theorem status_update_scoping (users : List StoredUser) (socket : Sock)
    (u : StoredUser)
    (h : users.find? (fun x => x.id == socket.userId) = some u) :
    statusUpdates (connectionEmissions socket) = []
    ∧ (u.role = Role.student →
        (broadcastStatusUpdate users socket.userId).filter isCourseDelivery
          = u.enrolledCourses.map (fun cid =>
              ⟨Target.room (Room.course cid), "user_status_update",
                some socket.userId⟩))
    ∧ (¬ u.role = Role.student →
        (broadcastStatusUpdate users socket.userId).filter isCourseDelivery = [])
    ∧ (∀ d, u.department = some d →
        (broadcastStatusUpdate users socket.userId).filter isDeptDelivery
          = [⟨Target.room (Room.department d), "user_status_update",
              some socket.userId⟩])
    ∧ (u.department = none →
        (broadcastStatusUpdate users socket.userId).filter isDeptDelivery = []) := by
  obtain ⟨uid, ur, udep, uenr⟩ := u
  refine ⟨rfl, ?_, ?_, ?_, ?_⟩
  · intro hrole
    cases hrole
    cases udep <;>
      simp [broadcastStatusUpdate, h, List.filter_append, List.filter_map,
        Function.comp_def, isCourseDelivery]
  · intro hrole
    cases ur
    · exact absurd rfl hrole
    · cases udep <;>
        simp [broadcastStatusUpdate, h, List.filter_append, isCourseDelivery]
    · cases udep <;>
        simp [broadcastStatusUpdate, h, List.filter_append, isCourseDelivery]
  · intro d hdep
    cases hdep
    cases ur <;>
      simp [broadcastStatusUpdate, h, List.filter_append, List.filter_map,
        Function.comp_def, isDeptDelivery]
  · intro hdep
    cases hdep
    cases ur <;>
      simp [broadcastStatusUpdate, h, List.filter_append, List.filter_map,
        Function.comp_def, isDeptDelivery]

/-- Witness for the C4 theorem: a student (user 11, department 4, enrolled
in course 8) — the disconnect broadcast reaches the course-8 room. -/
theorem status_update_scoping_witness :
    (broadcastStatusUpdate [⟨11, Role.student, some 4, [8]⟩] 11).filter
        isCourseDelivery
      = [⟨Target.room (Room.course 8), "user_status_update", some 11⟩] := by
  have h := status_update_scoping [⟨11, Role.student, some 4, [8]⟩]
    ⟨2, 11, Role.student, some 4⟩ ⟨11, Role.student, some 4, [8]⟩ (by decide)
  simpa using h.2.1 rfl

/-- C5: join_course answers Course not found when the course id is absent
from the store; it answers Not authorized for a non-admin principal that is
neither in the course's enrolledStudents nor its teacher; and it joins the
room whenever the principal is enrolled, is the teacher, or has role
admin. -/
theorem join_course_access (store : List Course) (socket : Sock)
    (courseId : Nat) :
    (store.find? (fun c => c.id == courseId) = none →
      handleJoinCourse store socket courseId = JoinResult.notFound)
    ∧ (∀ course, store.find? (fun c => c.id == courseId) = some course →
        ¬ socket.role = Role.admin →
        socket.userId ∉ course.enrolledStudents →
        ¬ course.teacher = socket.userId →
        handleJoinCourse store socket courseId = JoinResult.forbidden)
    ∧ (∀ course, store.find? (fun c => c.id == courseId) = some course →
        (socket.userId ∈ course.enrolledStudents
          ∨ course.teacher = socket.userId ∨ socket.role = Role.admin) →
        handleJoinCourse store socket courseId = JoinResult.joined) := by
  refine ⟨?_, ?_, ?_⟩
  · intro h
    simp [handleJoinCourse, h]
  · intro course hfind hadmin henr hteach
    simp [handleJoinCourse, hfind, hasAccess, henr, hteach, hadmin]
  · intro course hfind hacc
    rcases hacc with henr | hteach | hadmin
    · simp [handleJoinCourse, hfind, hasAccess, henr]
    · simp [handleJoinCourse, hfind, hasAccess, hteach]
    · simp [handleJoinCourse, hfind, hasAccess, hadmin]

/-- Witness for the C5 theorem on the store [course 5, teacher 1, enrolled
[2]]: an unknown course id is not found; the unrelated student 3 is
forbidden; the enrolled student 2 joins. -/
theorem join_course_access_witness :
    handleJoinCourse [⟨5, 1, [2]⟩] ⟨9, 3, Role.student, none⟩ 6
      = JoinResult.notFound
    ∧ handleJoinCourse [⟨5, 1, [2]⟩] ⟨9, 3, Role.student, none⟩ 5
      = JoinResult.forbidden
    ∧ handleJoinCourse [⟨5, 1, [2]⟩] ⟨9, 2, Role.student, none⟩ 5
      = JoinResult.joined :=
  ⟨(join_course_access [⟨5, 1, [2]⟩] ⟨9, 3, Role.student, none⟩ 6).1 (by decide),
   (join_course_access [⟨5, 1, [2]⟩] ⟨9, 3, Role.student, none⟩ 5).2.1
     ⟨5, 1, [2]⟩ (by decide) (by decide) (by decide) (by decide),
   (join_course_access [⟨5, 1, [2]⟩] ⟨9, 2, Role.student, none⟩ 5).2.2
     ⟨5, 1, [2]⟩ (by decide) (Or.inl (by decide))⟩

/-- C7: an admin connection is auto-subscribed by joinCourseRooms to every
course in the store: when the stored course ids are distinct, the number of
distinct course rooms joined equals the store's total course count. -/
theorem admin_subscribed_to_all_courses (store : List Course) (socket : Sock)
    (hrole : socket.role = Role.admin)
    (hids : (store.map (fun c => c.id)).Nodup) :
    (joinCourseRooms store socket).dedup.length = store.length := by
  have hjoin : joinCourseRooms store socket = store.map (fun c => c.id) := by
    unfold joinCourseRooms
    rw [hrole]
  rw [hjoin, List.dedup_eq_self.mpr hids, List.length_map]

/-- Witness for the C7 theorem: an admin connecting against a store of two
courses joins exactly two course rooms. -/
theorem admin_subscribed_to_all_courses_witness :
    (joinCourseRooms [⟨1, 0, []⟩, ⟨2, 0, []⟩] ⟨1, 99, Role.admin, none⟩).dedup.length
      = 2 := by
  have h := admin_subscribed_to_all_courses [⟨1, 0, []⟩, ⟨2, 0, []⟩]
    ⟨1, 99, Role.admin, none⟩ rfl (by decide)
  simpa using h

end USTHB

namespace USTHB

/-- C8: per source-target FIFO.  The relay loop handles submissions to
completion in arrival order, so for every room membership assignment, every
source connection S and every observer connection T, the stream of
deliveries T observes that originated from S is exactly the stream produced
by S's submissions taken in submission order — typingStart before
typingStop from S reaches T in that order.  Nothing relates deliveries of
different sources, so no cross-source order is promised. -/
theorem relay_fifo_per_source_target (rooms : Nat → Room → Bool) (S T : Nat)
    (subs : List Submission) :
    (relayTrace subs).filter (fun r => r.src == S && deliveredTo rooms T r)
      = (relayTrace (subs.filter (fun s => s.socket.sid == S))).filter
          (fun r => deliveredTo rooms T r) := by
  induction subs with
  | nil => rfl
  | cons s rest ih =>
      by_cases hs : s.socket.sid = S
      · simp [relayTrace, List.filter_append, List.filter_map, Function.comp_def,
          hs, ih]
      · simp [relayTrace, List.filter_append, List.filter_map, Function.comp_def,
          hs, ih]

end USTHB
